import Mathlib

/-!
Verification of the content-ranking core of the `fixed-tanner` repository:
the batch trending scorer (`backend/posts/tasks.py, update_trending_scores`),
the multi-section feed assembler (`backend/posts/views.py, feed` /
`_get_section_posts`), the per-user interest graph
(`backend/posts/models.py, UserInterestGraph.calculate_interest_graph`) and
the post search ranking (`backend/search/views.py, _search_posts`).

Modelling conventions:
* timestamps are `Int` seconds; Python's `timedelta.days` is floor division
  by 86400, which for the positive divisor coincides with `Int` division;
* Python floats are modelled as `ℚ` (every constant in the source is an
  exact decimal, and the properties checked are value equations and
  comparisons, not bit-level float behaviour);
* database rows are explicit lists; `QuerySet.filter`/`order_by`/slicing
  become `List.filter`, a stable insertion sort, `drop`/`take`;
* values computed by external engines (PostgreSQL trigram similarity,
  full-text rank, the NLTK tokenizer, `random.random()`) are inputs to the
  embedded functions, one value per place the source calls them.
-/

namespace Tanner

/-- Seconds in one day, the unit of Python's `timedelta.days`. -/
def daySecs : Int := 86400

/-! ## Batch trending scorer — `backend/posts/tasks.py`, `update_trending_scores` -/

/-- The interaction data of one post that `update_trending_scores` reads:
creation time, the `created_at` of every like, comment and view row, and the
count of SHARE interactions. -/
structure PostData where
  pid : Nat
  created_at : Int
  likeTimes : List Int
  commentTimes : List Int
  viewTimes : List Int
  shareCount : Nat
  deriving Repr, DecidableEq

/-- `post.likes.filter(created_at__gte=cutoff).count()`. -/
def countSince (times : List Int) (cutoff : Int) : Nat :=
  (times.filter (fun t => cutoff ≤ t)).length

/-- `likes_score = day_likes*10 + week_likes*5 + month_likes*1`
(windows are cumulative: a like in the last day is also counted in the week
and month windows). -/
def likes_score (p : PostData) (now : Int) : ℚ :=
  (countSince p.likeTimes (now - daySecs) : ℚ) * 10 +
    (countSince p.likeTimes (now - 7 * daySecs) : ℚ) * 5 +
    (countSince p.likeTimes (now - 30 * daySecs) : ℚ) * 1

/-- `comments_score = day*15 + week*7 + month*2`. -/
def comments_score (p : PostData) (now : Int) : ℚ :=
  (countSince p.commentTimes (now - daySecs) : ℚ) * 15 +
    (countSince p.commentTimes (now - 7 * daySecs) : ℚ) * 7 +
    (countSince p.commentTimes (now - 30 * daySecs) : ℚ) * 2

/-- `views_score = day*1 + week*0.5 + month*0.1`. -/
def views_score (p : PostData) (now : Int) : ℚ :=
  (countSince p.viewTimes (now - daySecs) : ℚ) * 1 +
    (countSince p.viewTimes (now - 7 * daySecs) : ℚ) * (1/2) +
    (countSince p.viewTimes (now - 30 * daySecs) : ℚ) * (1/10)

/-- `total_views = post.views.count() or 1` — Python `or` floors the
denominator at 1 when the view count is zero. -/
def total_views_denom (p : PostData) : Nat :=
  if p.viewTimes.length = 0 then 1 else p.viewTimes.length

/-- `engagement_ratio = (likes.count() + comments.count()) / total_views`. -/
def engagement_ratio (p : PostData) : ℚ :=
  ((p.likeTimes.length : ℚ) + (p.commentTimes.length : ℚ)) / (total_views_denom p : ℚ)

/-- `post_age_days = (now - post.created_at).days + 1`; `.days` is floor
division of the elapsed seconds by 86400. -/
def post_age_days (p : PostData) (now : Int) : Int :=
  (now - p.created_at) / daySecs + 1

/-- The age step function of `update_trending_scores`: thresholds 1, 3, 7,
14, 30 on `post_age_days`. -/
def age_factor (p : PostData) (now : Int) : ℚ :=
  if post_age_days p now ≤ 1 then 3/2
  else if post_age_days p now ≤ 3 then 6/5
  else if post_age_days p now ≤ 7 then 1
  else if post_age_days p now ≤ 14 then 4/5
  else if post_age_days p now ≤ 30 then 3/5
  else 2/5

/-- `final_score = (likes*1.0 + comments*1.5 + views*0.8) * engagement_ratio * age_factor`. -/
def final_score (p : PostData) (now : Int) : ℚ :=
  (likes_score p now * 1 + comments_score p now * (3/2) + views_score p now * (4/5)) *
    engagement_ratio p * age_factor p now

/-- The `TrendingScore` row written by `update_or_create`. -/
structure TrendingRecord where
  score : ℚ
  view_count : Nat
  like_count : Nat
  comment_count : Nat
  share_count : Nat
  last_calculated : Int
  deriving Repr, DecidableEq

/-- The fields `update_trending_scores` writes for one post. -/
def processPost (p : PostData) (now : Int) : TrendingRecord :=
  { score := final_score p now
    view_count := p.viewTimes.length
    like_count := p.likeTimes.length
    comment_count := p.commentTimes.length
    share_count := p.shareCount
    last_calculated := now }

/-- The `TrendingScore` table, keyed by post id. -/
abbrev Store := List (Nat × TrendingRecord)

/-- Lookup of a post's trending row. -/
def lookupStore (s : Store) (pid : Nat) : Option TrendingRecord :=
  (s.find? (fun e => e.1 = pid)).map (·.2)

/-- `TrendingScore.objects.update_or_create(post=post, defaults=...)`:
overwrite the row of this post (`post` is a `OneToOneField`, so at most one
row matches) or append a new one. -/
def upsertStore : Store → Nat → TrendingRecord → Store
  | [], pid, r => [(pid, r)]
  | e :: t, pid, r => if e.1 = pid then (pid, r) :: t else e :: upsertStore t pid r

/-- Recalculate and persist one post's trending score, as the body of the
per-post loop does. -/
def recalcPost (s : Store) (p : PostData) (now : Int) : Store :=
  upsertStore s p.pid (processPost p now)

/-- The source's `created or trending_score.score != final_score` check,
where `trending_score` is the row `update_or_create` just wrote back. -/
def sweepChanged (s : Store) (p : PostData) (now : Int) : Bool :=
  (lookupStore s p.pid).isNone ||
    decide ((lookupStore (recalcPost s p now) p.pid).map (·.score) ≠
      some (processPost p now).score)

/-- The whole task body: a single `try` wraps the loop over all posts, so
the first exception anywhere abandons the loop; the rows already written
stay written and the task returns an error payload instead of the counts.
Each element of `posts` is either fetched interaction data or the error the
store raised for that post. -/
def sweepGo (now : Int) : Store → Nat → Nat → List (Except String PostData) →
    Store × Except String (Nat × Nat)
  | s, proc, upd, [] => (s, .ok (proc, upd))
  | s, _, _, (.error e) :: _ => (s, .error e)
  | s, proc, upd, (.ok p) :: rest =>
      sweepGo now (recalcPost s p now) (proc + 1)
        (if sweepChanged s p now then upd + 1 else upd) rest

/-- `update_trending_scores`: run the sweep from zero counters; the result
is the final table plus either `{processed, updated}` or `{error}`. -/
def update_trending_scores (s : Store) (posts : List (Except String PostData))
    (now : Int) : Store × Except String (Nat × Nat) :=
  sweepGo now s 0 0 posts

/-! ## Feed assembler — `backend/posts/views.py`, `feed` and `_get_section_posts` -/

/-- A post as the feed queryset sees it: id, author, creation time, the
denormalized like/comment counters, the related trending score, tags and
content type. -/
structure FeedPost where
  id : Nat
  author : Nat
  created_at : Int
  likes_count : Nat
  comments_count : Nat
  trending : ℚ
  tags : List String
  ptype : String
  deriving Repr, DecidableEq

/-- A `UserContentPreference` row. -/
structure Prefs where
  news_preference : Int
  audio_preference : Int
  tag_preferences : List (String × Int)
  deriving Repr, DecidableEq

/-- The authenticated viewer: id, followed user ids, and the optional
preference / interest-graph records (absent when `personalize` is off or
the rows do not exist). -/
structure Viewer where
  vid : Nat
  following : List Nat
  prefs : Option Prefs
  graph : Option (List (Nat × ℚ))
  deriving Repr, DecidableEq

/-- Lexicographic "greater or equal" on a (score, created_at) sort key:
the `order_by('-final_score', '-created_at')` comparison. -/
def lexGe2 (x y : ℚ × Int) : Prop :=
  y.1 < x.1 ∨ (x.1 = y.1 ∧ y.2 ≤ x.2)

instance : DecidableRel lexGe2 := fun x y => by
  unfold lexGe2; infer_instance

/-- The sort relation induced on rows by a (score, created_at) key. -/
def keyGeR {α : Type} (k : α → ℚ × Int) : α → α → Prop :=
  fun a b => lexGe2 (k a) (k b)

instance {α : Type} (k : α → ℚ × Int) : DecidableRel (keyGeR k) :=
  fun a b => by unfold keyGeR; infer_instance

instance {α : Type} (k : α → ℚ × Int) : IsTotal α (keyGeR k) where
  total a b := by
    unfold keyGeR lexGe2
    rcases lt_trichotomy (k a).1 (k b).1 with h | h | h
    · exact Or.inr (Or.inl h)
    · rcases le_total (k b).2 (k a).2 with h2 | h2
      · exact Or.inl (Or.inr ⟨h, h2⟩)
      · exact Or.inr (Or.inr ⟨h.symm, h2⟩)
    · exact Or.inl (Or.inl h)

instance {α : Type} (k : α → ℚ × Int) : IsTrans α (keyGeR k) where
  trans a b c hab hbc := by
    unfold keyGeR lexGe2 at *
    rcases hab with h1 | ⟨e1, l1⟩
    · rcases hbc with h2 | ⟨e2, l2⟩
      · exact Or.inl (h2.trans h1)
      · exact Or.inl (e2 ▸ h1)
    · rcases hbc with h2 | ⟨e2, l2⟩
      · exact Or.inl (e1 ▸ h2)
      · exact Or.inr ⟨e1.trans e2, l2.trans l1⟩

/-- `base_score = likes_count*1.0 + comments_count*2.0` (both the
`following` and `recommended` sections). -/
def base_score (p : FeedPost) : ℚ :=
  (p.likes_count : ℚ) * 1 + (p.comments_count : ℚ) * 2

/-- The `following` section's recency tiers: 20/15/10/5 for 24h/48h/7d/30d,
else 1. -/
def recency_following (now : Int) (p : FeedPost) : ℚ :=
  if now - daySecs ≤ p.created_at then 20
  else if now - 2 * daySecs ≤ p.created_at then 15
  else if now - 7 * daySecs ≤ p.created_at then 10
  else if now - 30 * daySecs ≤ p.created_at then 5
  else 1

/-- The personalization `Case` chain: first matching tag preference (else
0.5), times the content-type ratio (`news_preference/50` for NEWS,
`audio_preference/50` for AUDIO, else 1); without a preference row the
whole factor is the default `Value(1.0)`. -/
def personalization_score (prefs : Option Prefs) (p : FeedPost) : ℚ :=
  match prefs with
  | none => 1
  | some pr =>
      let tagv : ℚ :=
        match pr.tag_preferences.find? (fun tw => p.tags.contains tw.1) with
        | some tw => (tw.2 : ℚ) / 100
        | none => 1/2
      let typev : ℚ :=
        if p.ptype = "NEWS" then (pr.news_preference : ℚ) / 50
        else if p.ptype = "AUDIO" then (pr.audio_preference : ℚ) / 50
        else 1
      tagv * typev

/-- `final_score` of the `following` section:
`0.3*base + 0.4*recency + 0.2*(trending*2.0) + 0.1*personalization`. -/
def following_final (prefs : Option Prefs) (now : Int) (p : FeedPost) : ℚ :=
  base_score p * (3/10) + recency_following now p * (2/5) +
    (p.trending * 2) * (1/5) + personalization_score prefs p * (1/10)

/-- The `recommended` section's recency tiers: 15/10/5 for 24h/48h/7d,
else 1. -/
def recency_recommended (now : Int) (p : FeedPost) : ℚ :=
  if now - daySecs ≤ p.created_at then 15
  else if now - 2 * daySecs ≤ p.created_at then 10
  else if now - 7 * daySecs ≤ p.created_at then 5
  else 1

/-- "Greater or equal" by edge weight, the key of
`sorted(..., key=lambda x: x[1], reverse=True)`. -/
def weightGe (x y : Nat × ℚ) : Prop := y.2 ≤ x.2

instance : DecidableRel weightGe := fun x y => by unfold weightGe; infer_instance

/-- The top-50 interest-graph author ids, highest weight first. -/
def relatedUserIds (entries : List (Nat × ℚ)) : List Nat :=
  ((entries.insertionSort weightGe).take 50).map (·.1)

/-- The position-based interest boost: author at index `i` of the related
list gets `(1 - i/len)*10.0`, anyone else the default `0.1`. -/
def interest_boost (related : List Nat) (p : FeedPost) : ℚ :=
  match related.indexOf? p.author with
  | some i => (1 - (i : ℚ) / (related.length : ℚ)) * 10
  | none => 1/10

/-- `final_score` of the `recommended` section:
`0.2*base + 0.2*recency + 0.5*interest + 0.1*(trending*2.0)`. -/
def recommended_final (related : List Nat) (now : Int) (p : FeedPost) : ℚ :=
  base_score p * (1/5) + recency_recommended now p * (1/5) +
    interest_boost related p * (1/2) + (p.trending * 2) * (1/10)

/-- The `discover` section's recency tiers: 0.7 within 7 days, 0.5 within
30, else 0.3. -/
def recency_discover (now : Int) (p : FeedPost) : ℚ :=
  if now - 7 * daySecs ≤ p.created_at then 7/10
  else if now - 30 * daySecs ≤ p.created_at then 1/2
  else 3/10

/-- The `discover` score `random_factor*0.7 + recency_score*0.3`, where
`r` is the single `random.random()` value annotated onto every row of the
request's queryset. -/
def discover_final (r : ℚ) (now : Int) (p : FeedPost) : ℚ :=
  r * (7/10) + recency_discover now p * (3/10)

/-- Shared tail of every section: filter the candidates, order by the
section's key (descending, then `created_at` descending), slice
`[offset : offset+limit]`, and report `has_more = total > offset+limit`. -/
def sectionPipeline (pred : FeedPost → Bool) (key : FeedPost → ℚ × Int)
    (qs : List FeedPost) (offset limit : Nat) : List FeedPost × Bool :=
  ((((qs.filter pred).insertionSort (keyGeR key)).drop offset).take limit,
    decide (offset + limit < ((qs.filter pred).insertionSort (keyGeR key)).length))

/-- The `if seen_post_ids: queryset = queryset.exclude(id__in=seen_post_ids)`
guard at the top of `_get_section_posts`. -/
def excludeSeen (seen : List Nat) (qs0 : List FeedPost) : List FeedPost :=
  if seen.isEmpty then qs0 else qs0.filter (fun p => !seen.contains p.id)

/-- `_get_section_posts`: exclude ids already seen, then run the section's
scoring and pagination.  `viewer = none` is an unauthenticated request;
`r` is the request's single random draw for `discover`. -/
def get_section_posts (viewer : Option Viewer) (qs0 : List FeedPost)
    (sec : String) (limit offset : Nat) (seen : List Nat) (now : Int) (r : ℚ) :
    List FeedPost × Bool :=
  if sec = "following" then
    match viewer with
    | none => ([], false)
    | some v =>
        sectionPipeline (fun p => v.following.contains p.author)
          (fun p => (following_final v.prefs now p, p.created_at))
          (excludeSeen seen qs0) offset limit
  else if sec = "recommended" then
    match viewer with
    | none => ([], false)
    | some v =>
        if (relatedUserIds (v.graph.getD [])).isEmpty then
          sectionPipeline (fun p => !decide (p.author = v.vid))
            (fun p => (p.trending, p.created_at)) (excludeSeen seen qs0) offset limit
        else
          sectionPipeline (fun p => !decide (p.author = v.vid))
            (fun p => (recommended_final (relatedUserIds (v.graph.getD [])) now p,
              p.created_at)) (excludeSeen seen qs0) offset limit
  else if sec = "trending" then
    sectionPipeline (fun p => decide (0 < p.trending))
      (fun p => (p.trending, p.created_at)) (excludeSeen seen qs0) offset limit
  else if sec = "discover" then
    match viewer with
    | some v =>
        sectionPipeline (fun p => !v.following.contains p.author)
          (fun p => (discover_final r now p, 0)) (excludeSeen seen qs0) offset limit
    | none =>
        sectionPipeline (fun _ => true)
          (fun p => (discover_final r now p, 0)) (excludeSeen seen qs0) offset limit
  else ([], false)

/-- The per-request loop of `feed` over the requested section names,
threading the running `seen_post_ids` set; empty sections are omitted and
contribute nothing to `seen`. -/
def feedGo (viewer : Option Viewer) (qs : List FeedPost) (limit offset : Nat)
    (now : Int) (r : ℚ) : List String → List Nat → List (String × List FeedPost)
  | [], _ => []
  | sec :: rest, seen =>
      if viewer.isNone ∧ (sec = "following" ∨ sec = "recommended") then
        feedGo viewer qs limit offset now r rest seen
      else if (get_section_posts viewer qs sec limit offset seen now r).1.isEmpty then
        feedGo viewer qs limit offset now r rest seen
      else
        (sec, (get_section_posts viewer qs sec limit offset seen now r).1) ::
          feedGo viewer qs limit offset now r rest
            (seen ++ ((get_section_posts viewer qs sec limit offset seen now r).1).map (·.id))

/-- The section names `feed` fans out to: all four for an authenticated
`section=all` request, the anonymous pair otherwise, or the single
requested section. -/
def sectionsToInclude (viewer : Option Viewer) (sectionParam : String) : List String :=
  if sectionParam = "all" then
    match viewer with
    | some _ => ["following", "recommended", "trending", "discover"]
    | none => ["trending", "discover"]
  else [sectionParam]

/-- The assembled sections of one feed response
(`offset = (page-1)*limit`). -/
def feedSections (viewer : Option Viewer) (qs : List FeedPost)
    (sectionParam : String) (page limit : Nat) (now : Int) (r : ℚ) :
    List (String × List FeedPost) :=
  feedGo viewer qs limit ((page - 1) * limit) now r
    (sectionsToInclude viewer sectionParam) []

/-- The ultimate fallback queryset of `feed`:
`get_queryset().order_by('-created_at')[:10]`. -/
def ultimate_fallback (qs : List FeedPost) : List FeedPost :=
  (qs.insertionSort (keyGeR (fun p => (0, p.created_at)))).take 10

/-- The three observable outcomes of the `feed` endpoint. -/
inductive FeedResponse
  | sections (data : List (String × List FeedPost))
  | fallback (posts : List FeedPost)
  | errorResp (msg : String)
  deriving Repr, DecidableEq

/-- The exception structure of `feed`: a successful assembly is returned;
if assembly throws, the recent-posts fallback is tried; if fetching that
fallback throws too, an explicit error response is returned.  `assembly`
and `fallbackFetch` stand for the two fallible spans of the handler. -/
def feedEndpoint (assembly : Except String (List (String × List FeedPost)))
    (fallbackFetch : Except String (List FeedPost)) : FeedResponse :=
  match assembly with
  | .ok d => .sections d
  | .error _ =>
      match fallbackFetch with
      | .ok ps => .fallback (ultimate_fallback ps)
      | .error e => .errorResp e

/-! ## Interest graph — `backend/posts/models.py`,
`UserInterestGraph.calculate_interest_graph` -/

/-- The weighted adjacency dict `{user_id: weight}`, as an insertion-ordered
association list (Python dict preserves insertion order; keys are unique). -/
abbrev IGraph := List (Nat × Int)

/-- `g[k] = g.get(k, 0) + w`: bump the (unique) existing key in place or
append a new one. -/
def addWeight : IGraph → Nat → Int → IGraph
  | [], k, w => [(k, w)]
  | e :: t, k, w => if e.1 = k then (e.1, e.2 + w) :: t else e :: addWeight t k w

/-- Dict membership lookup. -/
def lookupGraph (g : IGraph) (k : Nat) : Option Int :=
  (g.find? (fun e => e.1 = k)).map (·.2)

/-- `del g[k]`: a Python dict holds each key at most once, so deletion is a
filter on the key. -/
def delKey (g : IGraph) (k : Nat) : IGraph :=
  g.filter (fun e => !decide (e.1 = k))

/-- Everything `calculate_interest_graph` reads: the user's follow edges in
both directions, the likers of every post the user liked, the global
`PostInteraction` rows `(user, post)`, and each user's following list for
the second-degree pass (`none` models the guarded `User.objects.get`
failure). -/
structure GraphInput where
  userId : Nat
  following : List Nat
  followers : List Nat
  likedPostLikers : List (List Nat)
  interactions : List (Nat × Nat)
  followingOf : Nat → Option (List Nat)

/-- "Greater or equal" by accumulated weight, the key of the
`sorted(interest_graph.items(), key=lambda x: x[1], reverse=True)` calls. -/
def iWeightGe (x y : Nat × Int) : Prop := y.2 ≤ x.2

instance : DecidableRel iWeightGe := fun x y => by unfold iWeightGe; infer_instance

/-- Step 3's grouped query: users other than `userId` who interacted with a
post the user interacted with, grouped with their common-interaction
counts (first-appearance order), sorted by count descending, top 50. -/
def similarUsers (inp : GraphInput) : List (Nat × Int) :=
  let myPosts := (inp.interactions.filter (fun e => e.1 = inp.userId)).map (·.2)
  let rows := inp.interactions.filter
    (fun e => !decide (e.1 = inp.userId) && myPosts.contains e.2)
  let grouped := rows.foldl (fun acc e => addWeight acc e.1 1) []
  (grouped.insertionSort iWeightGe).take 50

/-- `calculate_interest_graph`: the four additive passes, the second-degree
expansion over the current top 20, and the final self-edge deletion. -/
def calculate_interest_graph (inp : GraphInput) : IGraph :=
  let g : IGraph := []
  let g := inp.following.foldl (fun g u => addWeight g u 10) g
  let g := inp.followers.foldl (fun g u => addWeight g u 5) g
  let g := inp.likedPostLikers.foldl
    (fun g likers => likers.foldl
      (fun g l => if l ≠ inp.userId then addWeight g l 2 else g) g) g
  let g := (similarUsers inp).foldl (fun g e => addWeight g e.1 e.2) g
  let top := ((g.insertionSort iWeightGe).take 20).map (·.1)
  let g := top.foldl
    (fun g uid =>
      match inp.followingOf uid with
      | none => g
      | some fol => fol.foldl
          (fun g f => if f ≠ inp.userId then addWeight g f 1 else g) g) g
  delKey g inp.userId

/-- The method recomputes `self.interest_graph` from scratch and overwrites
it, so the saved edge map is `calculate_interest_graph` of the interaction
data, whatever the prior stored graph was. -/
def recalculateGraph (_prior : IGraph) (inp : GraphInput) : IGraph :=
  calculate_interest_graph inp

/-! ## Post search — `backend/search/views.py`, `_search_posts` -/

/-- Python `str.lower` on the character sequence. -/
def lowerChars (s : String) : List Char := s.data.map Char.toLower

/-- `needle in hay` on character lists (the SQL `ILIKE '%needle%'` of
Django's `icontains`, after lowering both sides). -/
def isSubOf : List Char → List Char → Bool
  | needle, [] => needle.isEmpty
  | needle, c :: t => needle.isPrefixOf (c :: t) || isSubOf needle t

/-- `field__iexact=q`. -/
def iexact (field q : String) : Bool := lowerChars field == lowerChars q

/-- `field__istartswith=q`. -/
def istarts (field q : String) : Bool := (lowerChars q).isPrefixOf (lowerChars field)

/-- `field__icontains=q`. -/
def icontains (field q : String) : Bool := isSubOf (lowerChars q) (lowerChars field)

/-- `field__iendswith=q`. -/
def iends (field q : String) : Bool := (lowerChars q).isSuffixOf (lowerChars field)

/-- A search request: the raw text, the NLTK `original_tokens` of
`preprocess_query` (external tokenizer, passed in as data), and the
`_normalize_query` form. -/
structure SQuery where
  text : String
  tokens : List String
  normalized : String
  deriving Repr, DecidableEq

/-- A candidate post row for `_search_posts`, including the values the
database computes for it: trigram similarities of title and description
against the query, and the full-text `SearchRank`. -/
structure SPost where
  id : Nat
  title : String
  description : String
  authorUsername : String
  authorFirst : String
  authorLast : String
  tags : List String
  ptype : String
  created_at : Int
  view_count : Nat
  like_count : Nat
  comment_count : Nat
  trigram_title : ℚ
  trigram_description : ℚ
  search_rank : ℚ
  deriving Repr, DecidableEq

/-- The `exact_match` Case: title 3.0, description 2.0, else 0. -/
def exact_match (q : SQuery) (p : SPost) : ℚ :=
  if iexact p.title q.text then 3
  else if iexact p.description q.text then 2
  else 0

/-- The `starts_with_score` Case chain, in the order the `When`s are
listed: whole query against title (2.0) and description (1.5), then each
token against title (1.5), then each token against description (1.0). -/
def starts_with_score (q : SQuery) (p : SPost) : ℚ :=
  if istarts p.title q.text then 2
  else if istarts p.description q.text then 3/2
  else if q.tokens.any (fun t => istarts p.title t) then 3/2
  else if q.tokens.any (fun t => istarts p.description t) then 1
  else 0

/-- The `contains_score` Case chain: whole query in title (1.5) or
description (1.0), then tokens in title (1.0) or description (0.7). -/
def contains_score (q : SQuery) (p : SPost) : ℚ :=
  if icontains p.title q.text then 3/2
  else if icontains p.description q.text then 1
  else if q.tokens.any (fun t => icontains p.title t) then 1
  else if q.tokens.any (fun t => icontains p.description t) then 7/10
  else 0

/-- The `author_match` Case (annotated but not part of `relevance`). -/
def author_match (q : SQuery) (p : SPost) : ℚ :=
  if icontains p.authorUsername q.text then 1
  else if icontains p.authorFirst q.text then 4/5
  else if icontains p.authorLast q.text then 4/5
  else 0

/-- `similarity = Greatest(title_similarity*1.5, description_similarity*1.0)`. -/
def similarity (p : SPost) : ℚ :=
  max (p.trigram_title * (3/2)) (p.trigram_description * 1)

/-- The `phonetic_score` Case: a token is a suffix of the title (0.7) or of
the description (0.6). -/
def phonetic_score (q : SQuery) (p : SPost) : ℚ :=
  if q.tokens.any (fun t => iends p.title t) then 7/10
  else if q.tokens.any (fun t => iends p.description t) then 3/5
  else 0

/-- `recency_boost`: 0.5 within 7 days, 0.3 within 30 days, else 0. -/
def recency_boost (now : Int) (p : SPost) : ℚ :=
  if now - 7 * daySecs ≤ p.created_at then 1/2
  else if now - 30 * daySecs ≤ p.created_at then 3/10
  else 0

/-- `popularity_boost = view_count*0.01 + like_count*0.05 + comment_count*0.03`. -/
def popularity_boost (p : SPost) : ℚ :=
  (p.view_count : ℚ) * (1/100) + (p.like_count : ℚ) * (5/100) +
    (p.comment_count : ℚ) * (3/100)

/-- The composite `relevance = Greatest(exact, starts_with, contains,
similarity, phonetic, search_rank*1.5)` — a max, not a sum. -/
def relevance (q : SQuery) (p : SPost) : ℚ :=
  max (exact_match q p)
    (max (starts_with_score q p)
      (max (contains_score q p)
        (max (similarity p)
          (max (phonetic_score q p) (p.search_rank * (3/2))))))

/-- The query-intent type filter: `audio|podcast|listen` restricts to
AUDIO, else `news|article|read` restricts to NEWS (case-insensitive
substring search, like `re.search(..., IGNORECASE)`). -/
def typeIntentFilter (q : SQuery) (posts : List SPost) : List SPost :=
  if icontains q.text "audio" || icontains q.text "podcast" ||
      icontains q.text "listen" then
    posts.filter (fun p => p.ptype = "AUDIO")
  else if icontains q.text "news" || icontains q.text "article" ||
      icontains q.text "read" then
    posts.filter (fun p => p.ptype = "NEWS")
  else posts

/-- The permissive candidate filter (the big `Q(...) | Q(...)` chain). -/
def passesSearchFilter (q : SQuery) (p : SPost) : Bool :=
  decide ((1 : ℚ)/100 < relevance q p) ||
  decide ((1 : ℚ)/100 < p.search_rank) ||
  icontains p.title q.normalized ||
  icontains p.description q.normalized ||
  icontains p.authorUsername q.normalized ||
  p.tags.any (fun t => icontains t q.normalized)

/-- Lexicographic "greater or equal" on the
(relevance, recency_boost, popularity_boost) triple of
`order_by('-relevance', '-recency_boost', '-popularity_boost')`. -/
def lexGe3 (x y : ℚ × ℚ × ℚ) : Prop :=
  y.1 < x.1 ∨ (x.1 = y.1 ∧ (y.2.1 < x.2.1 ∨ (x.2.1 = y.2.1 ∧ y.2.2 ≤ x.2.2)))

instance : DecidableRel lexGe3 := fun x y => by unfold lexGe3; infer_instance

/-- The sort relation induced on rows by a three-part key. -/
def key3GeR {α : Type} (k : α → ℚ × ℚ × ℚ) : α → α → Prop :=
  fun a b => lexGe3 (k a) (k b)

instance {α : Type} (k : α → ℚ × ℚ × ℚ) : DecidableRel (key3GeR k) :=
  fun a b => by unfold key3GeR; infer_instance

instance {α : Type} (k : α → ℚ × ℚ × ℚ) : IsTotal α (key3GeR k) where
  total a b := by
    unfold key3GeR lexGe3
    rcases lt_trichotomy (k a).1 (k b).1 with h | h | h
    · exact Or.inr (Or.inl h)
    · rcases lt_trichotomy (k a).2.1 (k b).2.1 with h2 | h2 | h2
      · exact Or.inr (Or.inr ⟨h.symm, Or.inl h2⟩)
      · rcases le_total (k b).2.2 (k a).2.2 with h3 | h3
        · exact Or.inl (Or.inr ⟨h, Or.inr ⟨h2, h3⟩⟩)
        · exact Or.inr (Or.inr ⟨h.symm, Or.inr ⟨h2.symm, h3⟩⟩)
      · exact Or.inl (Or.inr ⟨h, Or.inl h2⟩)
    · exact Or.inl (Or.inl h)

instance {α : Type} (k : α → ℚ × ℚ × ℚ) : IsTrans α (key3GeR k) where
  trans a b c hab hbc := by
    unfold key3GeR lexGe3 at *
    rcases hab with h1 | ⟨e1, h1⟩
    · rcases hbc with h2 | ⟨e2, _⟩
      · exact Or.inl (h2.trans h1)
      · exact Or.inl (e2 ▸ h1)
    · rcases hbc with h2 | ⟨e2, h2⟩
      · exact Or.inl (e1 ▸ h2)
      · refine Or.inr ⟨e1.trans e2, ?_⟩
        rcases h1 with h1 | ⟨f1, h1⟩
        · rcases h2 with h2 | ⟨f2, _⟩
          · exact Or.inl (h2.trans h1)
          · exact Or.inl (f2 ▸ h1)
        · rcases h2 with h2 | ⟨f2, h2⟩
          · exact Or.inl (f1 ▸ h2)
          · exact Or.inr ⟨f1.trans f2, h2.trans h1⟩

/-- The three sort keys of one candidate. -/
def searchKey (q : SQuery) (now : Int) (p : SPost) : ℚ × ℚ × ℚ :=
  (relevance q p, recency_boost now p, popularity_boost p)

/-- `_search_posts` up to the result truncation: intent filter, permissive
candidate filter, then the three-key descending order. -/
def search_posts_ranked (q : SQuery) (now : Int) (posts : List SPost) :
    List SPost :=
  ((typeIntentFilter q posts).filter (passesSearchFilter q)).insertionSort
    (key3GeR (searchKey q now))

/-- The served result list, `posts[:40]`. -/
def search_posts_result (q : SQuery) (now : Int) (posts : List SPost) :
    List SPost :=
  (search_posts_ranked q now posts).take 40

/-- The ranking key the specification text claims for posts (stated for
comparison with the code's ordering): composite relevance multiplied by a
2.0/1.5/1.0/0.5 recency tier for ≤1d/≤7d/≤30d/older, plus the popularity
term `0.005*views + 0.01*likes + 0.02*comments`. -/
def spec_claimed_rank_key (q : SQuery) (now : Int) (p : SPost) : ℚ :=
  let tier : ℚ :=
    if now - daySecs ≤ p.created_at then 2
    else if now - 7 * daySecs ≤ p.created_at then 3/2
    else if now - 30 * daySecs ≤ p.created_at then 1
    else 1/2
  relevance q p * tier +
    ((p.view_count : ℚ) * (5/1000) + (p.like_count : ℚ) * (1/100) +
      (p.comment_count : ℚ) * (2/100))

/-! ## Concrete fixtures used in the evaluations below -/

/-- The fallback the specification text claims for a failed feed assembly
(stated for comparison with the code's fallback): the top 10 posts in
plain trending order, descending trending score. -/
def spec_claimed_feed_fallback (qs : List FeedPost) : List FeedPost :=
  (qs.insertionSort (keyGeR (fun p => (p.trending, p.created_at)))).take 10

/-- A feed post with a high trending score but an old creation time. -/
def fbPostHot : FeedPost :=
  { id := 1, author := 1, created_at := 100, likes_count := 0,
    comments_count := 0, trending := 100, tags := [], ptype := "NEWS" }

/-- A newer feed post with a low trending score. -/
def fbPostNew : FeedPost :=
  { id := 2, author := 1, created_at := 200, likes_count := 0,
    comments_count := 0, trending := 1, tags := [], ptype := "NEWS" }

/-- The spec's example scenario, placed at reference time `now`: a post
created 12 hours ago with 5 likes and 20 views recorded at that same
moment (within the last day) and no comments. -/
def examplePost (now : Int) : PostData :=
  { pid := 1
    created_at := now - 43200
    likeTimes := List.replicate 5 (now - 43200)
    commentTimes := []
    viewTimes := List.replicate 20 (now - 43200)
    shareCount := 0 }

/-- A post with no interactions, created at time 0. -/
def oldPost : PostData :=
  { pid := 3, created_at := 0, likeTimes := [], commentTimes := [],
    viewTimes := [], shareCount := 0 }

/-- A second distinct post for the sweep counterexample. -/
def cexPostB : PostData :=
  { pid := 4, created_at := 0, likeTimes := [], commentTimes := [],
    viewTimes := [], shareCount := 0 }

/-- A one-word search query with its (trivial) token list and normalized
form. -/
def cexQuery : SQuery :=
  { text := "hello", tokens := ["hello"], normalized := "hello" }

/-- An old, unpopular candidate whose title equals the query exactly. -/
def cexExactOld : SPost :=
  { id := 1, title := "hello", description := "old entry",
    authorUsername := "u1", authorFirst := "", authorLast := "", tags := [],
    ptype := "NEWS", created_at := -8640000, view_count := 0, like_count := 0,
    comment_count := 0, trigram_title := 0, trigram_description := 0,
    search_rank := 0 }

/-- A fresh, popular candidate whose only matching signal is that its
title contains the query as a substring. -/
def cexSubstrNew : SPost :=
  { id := 2, title := "say hello world", description := "x",
    authorUsername := "u2", authorFirst := "", authorLast := "", tags := [],
    ptype := "NEWS", created_at := 0, view_count := 200, like_count := 0,
    comment_count := 0, trigram_title := 0, trigram_description := 0,
    search_rank := 0 }

/-! ## Helper lemmas -/

theorem lookupGraph_delKey (g : IGraph) (k : Nat) :
    lookupGraph (delKey g k) k = none := by
  unfold lookupGraph delKey
  rw [List.find?_eq_none.mpr]
  · rfl
  · intro x hx
    have hmem := List.mem_filter.mp hx
    simpa using hmem.2

theorem lookupStore_upsert (s : Store) (pid : Nat) (r : TrendingRecord) :
    lookupStore (upsertStore s pid r) pid = some r := by
  induction s with
  | nil => simp [upsertStore, lookupStore]
  | cons e t ih =>
      by_cases h : e.1 = pid
      · simp [upsertStore, h, lookupStore]
      · rw [upsertStore, if_neg h]
        unfold lookupStore
        rw [List.find?_cons_of_neg _ (by simpa using h)]
        exact ih

theorem upsertStore_idem (s : Store) (pid : Nat) (r : TrendingRecord) :
    upsertStore (upsertStore s pid r) pid r = upsertStore s pid r := by
  induction s with
  | nil => simp [upsertStore]
  | cons e t ih =>
      by_cases h : e.1 = pid
      · simp [upsertStore, h]
      · simp [upsertStore, h, ih]

/-! ## Claim theorems -/

/-- C7: after `calculate_interest_graph` recomputes and saves a user's
interest graph, the saved edge map has no entry keyed by the user's own id,
for every prior graph state and all follow/follower/like/interaction
data. -/
theorem interest_graph_no_self_edge (prior : IGraph) (inp : GraphInput) :
    lookupGraph (recalculateGraph prior inp) inp.userId = none := by
  unfold recalculateGraph calculate_interest_graph
  exact lookupGraph_delKey _ _

/-- C8: the batch trending recalculation is idempotent — recalculating a
post a second time over unchanged interaction data and the same reference
time leaves the stored table unchanged, and the persisted row is a pure
function of that data. -/
theorem trending_recalc_idempotent (s : Store) (p : PostData) (now : Int) :
    recalcPost (recalcPost s p now) p now = recalcPost s p now ∧
      lookupStore (recalcPost s p now) p.pid = some (processPost p now) :=
  ⟨upsertStore_idem s p.pid (processPost p now), lookupStore_upsert s p.pid (processPost p now)⟩

/-- C10: in the `discover` section a single random draw is shared by every
candidate of the request, so the comparison of two candidates' final
scores does not depend on the draw: it is exactly the comparison of their
recency tiers, and any two draws order any pair identically. -/
theorem discover_order_independent_of_draw (r₁ r₂ : ℚ) (now : Int) (pa pb : FeedPost) :
    (discover_final r₁ now pa < discover_final r₁ now pb ↔
      recency_discover now pa < recency_discover now pb) ∧
    (discover_final r₁ now pa < discover_final r₁ now pb ↔
      discover_final r₂ now pa < discover_final r₂ now pb) := by
  unfold discover_final
  constructor
  · constructor <;> intro h <;> nlinarith
  · constructor <;> intro h <;> nlinarith

/-- C4 counterexample: when the assembly fails, the endpoint serves
`order_by('-created_at')[:10]`, not the trending-ordered top 10 — with two
posts whose trending and recency orders disagree, the served fallback is
the reverse of the claimed one. -/
theorem feed_fallback_not_trending_order_cex :
    feedEndpoint (.error "assembly failed") (.ok [fbPostHot, fbPostNew]) =
      .fallback [fbPostNew, fbPostHot] ∧
    spec_claimed_feed_fallback [fbPostHot, fbPostNew] = [fbPostHot, fbPostNew] ∧
    ([fbPostNew, fbPostHot] : List FeedPost) ≠ [fbPostHot, fbPostNew] := by
  refine ⟨by decide, by decide, by decide⟩

/-- C4 amended: when the entire feed assembly raises, the endpoint responds
with the 10 most recent posts (descending `created_at`, with no score
dependence); only if that fallback itself fails does it return an explicit
error response. -/
theorem feed_fallback_recent_order (d : List (String × List FeedPost))
    (f : Except String (List FeedPost)) (m e : String) (ps : List FeedPost) :
    feedEndpoint (.ok d) f = .sections d ∧
    feedEndpoint (.error m) (.ok ps) = .fallback (ultimate_fallback ps) ∧
    feedEndpoint (.error m) (.error e) = .errorResp e ∧
    (ultimate_fallback ps).Pairwise (fun a b => b.created_at ≤ a.created_at) := by
  refine ⟨rfl, rfl, rfl, ?_⟩
  have hs := List.sorted_insertionSort
    (keyGeR (fun p : FeedPost => ((0 : ℚ), p.created_at))) ps
  have hp : (ps.insertionSort (keyGeR (fun p : FeedPost => ((0 : ℚ), p.created_at)))).Pairwise
      (fun a b => b.created_at ≤ a.created_at) := by
    refine hs.imp ?_
    intro a b h
    rcases h with h | ⟨_, h⟩
    · exact absurd h (lt_irrefl 0)
    · exact h
  exact hp.sublist (List.take_sublist _ _)

theorem countSince_replicate (n : Nat) (t c : Int) :
    countSince (List.replicate n t) c = if c ≤ t then n else 0 := by
  by_cases h : c ≤ t
  · simp [countSince, List.filter_replicate, h]
  · simp [countSince, List.filter_replicate, h]

/-- Evaluation of the batch formula on the example scenario, shared by the
statements about it. -/
theorem examplePost_eval (now : Int) :
    likes_score (examplePost now) now = 80 ∧
    comments_score (examplePost now) now = 0 ∧
    views_score (examplePost now) now = 32 ∧
    engagement_ratio (examplePost now) = 1/4 ∧
    age_factor (examplePost now) now = 3/2 ∧
    final_score (examplePost now) now = 198/5 := by
  have c1 : countSince (List.replicate 5 (now - 43200)) (now - daySecs) = 5 := by
    rw [countSince_replicate, if_pos (by unfold daySecs; omega)]
  have c2 : countSince (List.replicate 5 (now - 43200)) (now - 7 * daySecs) = 5 := by
    rw [countSince_replicate, if_pos (by unfold daySecs; omega)]
  have c3 : countSince (List.replicate 5 (now - 43200)) (now - 30 * daySecs) = 5 := by
    rw [countSince_replicate, if_pos (by unfold daySecs; omega)]
  have v1 : countSince (List.replicate 20 (now - 43200)) (now - daySecs) = 20 := by
    rw [countSince_replicate, if_pos (by unfold daySecs; omega)]
  have v2 : countSince (List.replicate 20 (now - 43200)) (now - 7 * daySecs) = 20 := by
    rw [countSince_replicate, if_pos (by unfold daySecs; omega)]
  have v3 : countSince (List.replicate 20 (now - 43200)) (now - 30 * daySecs) = 20 := by
    rw [countSince_replicate, if_pos (by unfold daySecs; omega)]
  have hls : likes_score (examplePost now) now = 80 := by
    unfold likes_score
    simp only [examplePost]
    rw [c1, c2, c3]; norm_num
  have hcs : comments_score (examplePost now) now = 0 := by
    simp [comments_score, examplePost, countSince]
  have hvs : views_score (examplePost now) now = 32 := by
    unfold views_score
    simp only [examplePost]
    rw [v1, v2, v3]; norm_num
  have her : engagement_ratio (examplePost now) = 1/4 := by
    simp [engagement_ratio, total_views_denom, examplePost]
    norm_num
  have haf : age_factor (examplePost now) now = 3/2 := by
    unfold age_factor post_age_days daySecs
    simp only [examplePost]
    have h12 : now - (now - 43200) = 43200 := by omega
    simp only [h12]
    norm_num
  have hfs : final_score (examplePost now) now = 198/5 := by
    unfold final_score
    rw [hls, hcs, hvs, her, haf]
    norm_num
  exact ⟨hls, hcs, hvs, her, haf, hfs⟩

/-- C1 counterexample: the cumulative windows count the 5 fresh likes in
the day, week and month windows alike, so in the example scenario
`likes_score = 5*10 + 5*5 + 5*1 = 80`, not 50, and the persisted score is
39.6, not the claimed 18.75. -/
theorem trending_example_scenario_cex :
    likes_score (examplePost 86400) 86400 = 80 ∧
    (processPost (examplePost 86400) 86400).score = 198/5 ∧
    (80 : ℚ) ≠ 50 ∧ (198 : ℚ)/5 ≠ 75/4 := by
  obtain ⟨h1, -, -, -, -, h6⟩ := examplePost_eval 86400
  exact ⟨h1, h6, by norm_num, by norm_num⟩

/-- C1 amended: in the example scenario the batch step function still
gives `age_factor = 1.5` and `engagement_ratio = 5/20 = 0.25`, but
`likes_score = 80` (the windows are cumulative, so the fresh likes count
in all three), the 20 fresh views give `views_score = 32`, and the
persisted score is `(80*1.0 + 0*1.5 + 32*0.8) * 0.25 * 1.5 = 39.6`. -/
theorem trending_example_scenario (now : Int) :
    likes_score (examplePost now) now = 80 ∧
    engagement_ratio (examplePost now) = 1/4 ∧
    age_factor (examplePost now) now = 3/2 ∧
    (processPost (examplePost now) now).score = 198/5 := by
  obtain ⟨h1, -, -, h4, h5, h6⟩ := examplePost_eval now
  exact ⟨h1, h4, h5, h6⟩

/-- C3 counterexample: a post whose age is exactly 30 days receives
age_factor 0.4, not the 0.6 the "age ≤ 30 days" tier of the claim
assigns (the code's `(now-created).days + 1` shifts every boundary to a
strict one). -/
theorem age_factor_boundary_cex :
    age_factor oldPost (30 * 86400) = 2/5 ∧ (2 : ℚ)/5 ≠ 3/5 := by
  constructor
  · unfold age_factor post_age_days daySecs oldPost
    norm_num
  · norm_num

/-- C3 amended: for a post whose age is nonnegative, the batch age factor
is the step function with strict upper bounds — 1.5 for age < 1 day, 1.2
for < 3 days, 1.0 for < 7 days, 0.8 for < 14 days, 0.6 for < 30 days, and
0.4 for ≥ 30 days. -/
theorem age_factor_strict_steps (p : PostData) (now : Int)
    (h : 0 ≤ now - p.created_at) :
    age_factor p now =
      if now - p.created_at < daySecs then 3/2
      else if now - p.created_at < 3 * daySecs then 6/5
      else if now - p.created_at < 7 * daySecs then 1
      else if now - p.created_at < 14 * daySecs then 4/5
      else if now - p.created_at < 30 * daySecs then 3/5
      else 2/5 := by
  unfold age_factor post_age_days daySecs at *
  split_ifs <;> first | rfl | (exfalso; omega)

/-- Witness for the amended C3 at a two-day-old post. -/
theorem age_factor_strict_steps_witness :
    (0 : Int) ≤ 172800 - oldPost.created_at ∧
      age_factor oldPost 172800 =
        (if 172800 - oldPost.created_at < daySecs then (3 : ℚ)/2
         else if 172800 - oldPost.created_at < 3 * daySecs then 6/5
         else if 172800 - oldPost.created_at < 7 * daySecs then 1
         else if 172800 - oldPost.created_at < 14 * daySecs then 4/5
         else if 172800 - oldPost.created_at < 30 * daySecs then 3/5
         else 2/5) :=
  ⟨by decide, age_factor_strict_steps oldPost 172800 (by decide)⟩

theorem sweepGo_map_ok (now : Int) (ds : List PostData) :
    ∀ (s : Store) (proc upd : Nat) (rest : List (Except String PostData)),
      ∃ s' upd', sweepGo now s proc upd (ds.map .ok ++ rest) =
        sweepGo now s' (proc + ds.length) upd' rest := by
  induction ds with
  | nil => intro s proc upd rest; exact ⟨s, upd, by simp⟩
  | cons d t ih =>
      intro s proc upd rest
      obtain ⟨s', upd', h⟩ :=
        ih (recalcPost s d now) (proc + 1)
          (if sweepChanged s d now then upd + 1 else upd) rest
      refine ⟨s', upd', ?_⟩
      have hstep : sweepGo now s proc upd ((d :: t).map .ok ++ rest) =
          sweepGo now (recalcPost s d now) (proc + 1)
            (if sweepChanged s d now then upd + 1 else upd) (t.map .ok ++ rest) := rfl
      rw [hstep, h]
      have hlen : proc + 1 + t.length = proc + (d :: t).length := by
        simp [List.length_cons]; omega
      rw [hlen]

/-- C2 amended: the task's single `try` wraps the whole loop, so the first
per-post failure aborts the sweep — the task returns the error payload and
never the processed/updated counts, and the remaining posts are not
processed; only a sweep with no per-post failure returns the counts. -/
theorem sweep_aborts_on_error (s : Store) (now : Int) (pre ds : List PostData)
    (e : String) (rest : List (Except String PostData)) :
    (update_trending_scores s (pre.map .ok ++ .error e :: rest) now).2 = .error e ∧
    ∃ st upd, update_trending_scores s (ds.map .ok) now = (st, .ok (ds.length, upd)) := by
  constructor
  · obtain ⟨s', upd', h⟩ := sweepGo_map_ok now pre s 0 0 (.error e :: rest)
    unfold update_trending_scores
    rw [h]
    rfl
  · obtain ⟨s', upd', h⟩ := sweepGo_map_ok now ds s 0 0 []
    refine ⟨s', upd', ?_⟩
    unfold update_trending_scores
    rw [List.append_nil] at h
    rw [h]
    simp [sweepGo]

/-- C2 counterexample: with a failure on the middle post, the sweep
returns an error payload instead of counts, the post after the failure is
never processed (no row is written for it), while the post before the
failure keeps its written row. -/
theorem sweep_abort_cex :
    (update_trending_scores [] [.ok oldPost, .error "db error", .ok cexPostB] 0).2 =
      .error "db error" ∧
    lookupStore (update_trending_scores []
      [.ok oldPost, .error "db error", .ok cexPostB] 0).1 cexPostB.pid = none ∧
    (lookupStore (update_trending_scores []
      [.ok oldPost, .error "db error", .ok cexPostB] 0).1 oldPost.pid).isSome = true := by
  refine ⟨rfl, rfl, rfl⟩

theorem mem_sectionPipeline {pred : FeedPost → Bool} {key : FeedPost → ℚ × Int}
    {qs : List FeedPost} {offset limit : Nat} {p : FeedPost}
    (hp : p ∈ (sectionPipeline pred key qs offset limit).1) : p ∈ qs := by
  unfold sectionPipeline at hp
  simp only at hp
  have h1 := List.take_subset _ _ hp
  have h2 := List.drop_subset _ _ h1
  rw [List.mem_insertionSort] at h2
  exact List.mem_of_mem_filter h2

theorem excludeSeen_mem {seen : List Nat} {qs0 : List FeedPost} {x : FeedPost}
    (hx : x ∈ excludeSeen seen qs0) : x.id ∉ seen ∧ x ∈ qs0 := by
  unfold excludeSeen at hx
  by_cases h : seen.isEmpty
  · rw [if_pos h] at hx
    rw [List.isEmpty_iff] at h
    subst h
    exact ⟨List.not_mem_nil _, hx⟩
  · rw [if_neg h] at hx
    have hm := List.mem_filter.mp hx
    refine ⟨?_, hm.1⟩
    have hb := hm.2
    simpa using hb

theorem get_section_posts_mem (viewer : Option Viewer) (qs0 : List FeedPost)
    (sec : String) (limit offset : Nat) (seen : List Nat) (now : Int) (r : ℚ) :
    ∀ p ∈ (get_section_posts viewer qs0 sec limit offset seen now r).1,
      p.id ∉ seen ∧ p ∈ qs0 := by
  intro p hp
  unfold get_section_posts at hp
  split at hp
  · split at hp
    · simp at hp
    · exact excludeSeen_mem (mem_sectionPipeline hp)
  · split at hp
    · split at hp
      · simp at hp
      · split at hp
        · exact excludeSeen_mem (mem_sectionPipeline hp)
        · exact excludeSeen_mem (mem_sectionPipeline hp)
    · split at hp
      · exact excludeSeen_mem (mem_sectionPipeline hp)
      · split at hp
        · split at hp
          · exact excludeSeen_mem (mem_sectionPipeline hp)
          · exact excludeSeen_mem (mem_sectionPipeline hp)
        · simp at hp

theorem feedGo_mem_and_disjoint (viewer : Option Viewer) (qs : List FeedPost)
    (limit offset : Nat) (now : Int) (r : ℚ) :
    ∀ (secs : List String) (seen : List Nat),
      (∀ s_ ∈ feedGo viewer qs limit offset now r secs seen,
        ∀ p ∈ s_.2, p.id ∉ seen) ∧
      (feedGo viewer qs limit offset now r secs seen).Pairwise
        (fun s_ t_ => ∀ p ∈ s_.2, ∀ p' ∈ t_.2, p.id ≠ p'.id) := by
  intro secs
  induction secs with
  | nil =>
      intro seen
      constructor
      · intro s_ hs_
        simp [feedGo] at hs_
      · simp [feedGo]
  | cons sec rest ih =>
      intro seen
      by_cases h1 : viewer.isNone ∧ (sec = "following" ∨ sec = "recommended")
      · have heq : feedGo viewer qs limit offset now r (sec :: rest) seen =
            feedGo viewer qs limit offset now r rest seen := by
          simp only [feedGo]
          rw [if_pos h1]
        rw [heq]
        exact ih seen
      · by_cases h2 : ((get_section_posts viewer qs sec limit offset seen now r).1).isEmpty
        · have heq : feedGo viewer qs limit offset now r (sec :: rest) seen =
              feedGo viewer qs limit offset now r rest seen := by
            simp only [feedGo]
            rw [if_neg h1, if_pos h2]
          rw [heq]
          exact ih seen
        · have heq : feedGo viewer qs limit offset now r (sec :: rest) seen =
              (sec, (get_section_posts viewer qs sec limit offset seen now r).1) ::
                feedGo viewer qs limit offset now r rest
                  (seen ++ ((get_section_posts viewer qs sec limit offset seen now r).1).map
                    (·.id)) := by
            simp only [feedGo]
            rw [if_neg h1, if_neg h2]
          rw [heq]
          obtain ⟨ihm, ihp⟩ := ih
            (seen ++ ((get_section_posts viewer qs sec limit offset seen now r).1).map (·.id))
          constructor
          · intro s_ hs_ p hps
            rcases List.mem_cons.mp hs_ with hh | ht
            · subst hh
              exact (get_section_posts_mem viewer qs sec limit offset seen now r p hps).1
            · have hni := ihm s_ ht p hps
              intro hmem
              exact hni (List.mem_append_left _ hmem)
          · refine List.Pairwise.cons ?_ ihp
            intro t_ ht p hp1 p' hp2
            have hni := ihm t_ ht p' hp2
            intro heqid
            apply hni
            apply List.mem_append_right
            rw [← heqid]
            exact List.mem_map_of_mem _ hp1

/-- C6: within one feed response no post id appears in more than one
section — the sections are pairwise disjoint by id, for every viewer
(authenticated or not), section selection, page, limit, queryset, clock
and random draw. -/
theorem feed_sections_no_duplicate_ids (viewer : Option Viewer) (qs : List FeedPost)
    (sectionParam : String) (page limit : Nat) (now : Int) (r : ℚ) :
    (feedSections viewer qs sectionParam page limit now r).Pairwise
      (fun s_ t_ => ∀ p ∈ s_.2, ∀ p' ∈ t_.2, p.id ≠ p'.id) := by
  unfold feedSections
  exact (feedGo_mem_and_disjoint viewer qs limit ((page - 1) * limit) now r
    (sectionsToInclude viewer sectionParam) []).2

/-- C5 amended: the post search ranking key is not the claimed
`relevance·tier + popularity` sum — the results are ordered by the
lexicographic triple (relevance, recency_boost, popularity_boost),
descending with that priority, over the permissively filtered candidates,
and the served page is the first 40 of that order. -/
theorem search_rank_key_lexicographic (q : SQuery) (now : Int) (posts : List SPost) :
    (search_posts_ranked q now posts).Pairwise
      (fun a b => lexGe3 (searchKey q now a) (searchKey q now b)) ∧
    (search_posts_ranked q now posts).Perm
      ((typeIntentFilter q posts).filter (passesSearchFilter q)) ∧
    search_posts_result q now posts = (search_posts_ranked q now posts).take 40 := by
  refine ⟨?_, ?_, rfl⟩
  · exact List.sorted_insertionSort (key3GeR (searchKey q now)) _
  · exact List.perm_insertionSort _ _

theorem relevance_cexExactOld : relevance cexQuery cexExactOld = 3 := by
  have e1 : iexact cexExactOld.title cexQuery.text = true := by decide
  have s1 : istarts cexExactOld.title cexQuery.text = true := by decide
  have c1 : icontains cexExactOld.title cexQuery.text = true := by decide
  have p1 : (cexQuery.tokens.any fun t => iends cexExactOld.title t) = true := by decide
  unfold relevance exact_match starts_with_score contains_score similarity phonetic_score
  rw [e1, s1, c1, p1]
  show max 3 (max 2 (max (3/2) (max (max (cexExactOld.trigram_title * (3/2))
    (cexExactOld.trigram_description * 1)) (max (7/10)
      (cexExactOld.search_rank * (3/2)))))) = 3
  norm_num [cexExactOld, max_def]

theorem relevance_cexSubstrNew : relevance cexQuery cexSubstrNew = 3/2 := by
  have e1 : iexact cexSubstrNew.title cexQuery.text = false := by decide
  have e2 : iexact cexSubstrNew.description cexQuery.text = false := by decide
  have s1 : istarts cexSubstrNew.title cexQuery.text = false := by decide
  have s2 : istarts cexSubstrNew.description cexQuery.text = false := by decide
  have s3 : (cexQuery.tokens.any fun t => istarts cexSubstrNew.title t) = false := by decide
  have s4 : (cexQuery.tokens.any fun t => istarts cexSubstrNew.description t) = false := by decide
  have c1 : icontains cexSubstrNew.title cexQuery.text = true := by decide
  have p1 : (cexQuery.tokens.any fun t => iends cexSubstrNew.title t) = false := by decide
  have p2 : (cexQuery.tokens.any fun t => iends cexSubstrNew.description t) = false := by decide
  unfold relevance exact_match starts_with_score contains_score similarity phonetic_score
  rw [e1, e2, s1, s2, s3, s4, c1, p1, p2]
  norm_num [cexSubstrNew, max_def]

theorem searchKey_cexExactOld : searchKey cexQuery 0 cexExactOld = (3, 0, 0) := by
  unfold searchKey recency_boost popularity_boost daySecs
  rw [relevance_cexExactOld]
  norm_num [cexExactOld]

theorem searchKey_cexSubstrNew : searchKey cexQuery 0 cexSubstrNew = (3/2, 1/2, 2) := by
  unfold searchKey recency_boost popularity_boost daySecs
  rw [relevance_cexSubstrNew]
  norm_num [cexSubstrNew]

theorem cex_ranked_eval :
    search_posts_ranked cexQuery 0 [cexSubstrNew, cexExactOld] =
      [cexExactOld, cexSubstrNew] := by
  unfold search_posts_ranked
  have ht : typeIntentFilter cexQuery [cexSubstrNew, cexExactOld] =
      [cexSubstrNew, cexExactOld] := by decide
  have hfB : passesSearchFilter cexQuery cexSubstrNew = true := by
    have h : icontains cexSubstrNew.title cexQuery.normalized = true := by decide
    simp [passesSearchFilter, h]
  have hfA : passesSearchFilter cexQuery cexExactOld = true := by
    have h : icontains cexExactOld.title cexQuery.normalized = true := by decide
    simp [passesSearchFilter, h]
  rw [ht]
  rw [show ([cexSubstrNew, cexExactOld].filter (passesSearchFilter cexQuery)) =
      [cexSubstrNew, cexExactOld] by simp [List.filter, hfB, hfA]]
  have hno : ¬ key3GeR (searchKey cexQuery 0) cexSubstrNew cexExactOld := by
    unfold key3GeR
    rw [searchKey_cexSubstrNew, searchKey_cexExactOld]
    unfold lexGe3
    push_neg
    norm_num
  simp [List.insertionSort, List.orderedInsert, hno]

/-- C5 counterexample: the code ranks an old, unpopular exact-title match
above a fresh, popular substring match (relevance decides first), while
the claimed key `relevance·recency_tier + 0.005·views + 0.01·likes +
0.02·comments` would rank them the other way (3/2 versus 4) — so the
claimed composite is not the ranking key. -/
theorem search_rank_key_cex :
    search_posts_ranked cexQuery 0 [cexSubstrNew, cexExactOld] =
      [cexExactOld, cexSubstrNew] ∧
    spec_claimed_rank_key cexQuery 0 cexExactOld <
      spec_claimed_rank_key cexQuery 0 cexSubstrNew := by
  refine ⟨cex_ranked_eval, ?_⟩
  have hA : spec_claimed_rank_key cexQuery 0 cexExactOld = 3/2 := by
    unfold spec_claimed_rank_key daySecs
    rw [relevance_cexExactOld]
    norm_num [cexExactOld]
  have hB : spec_claimed_rank_key cexQuery 0 cexSubstrNew = 4 := by
    unfold spec_claimed_rank_key daySecs
    rw [relevance_cexSubstrNew]
    norm_num [cexSubstrNew]
  rw [hA, hB]
  norm_num

theorem contains_score_le (q : SQuery) (p : SPost) : contains_score q p ≤ 3/2 := by
  unfold contains_score
  split_ifs <;> norm_num

/-- C9: in post search, a candidate whose title equals the query exactly
is always ranked strictly above a candidate whose only matching signal is
a substring (contains) match, for any query, candidate set and clock. -/
theorem exact_title_outranks_substring (q : SQuery) (now : Int)
    (posts : List SPost) (a b : SPost)
    (ha : iexact a.title q.text = true)
    (hb1 : exact_match q b = 0)
    (hb2 : starts_with_score q b = 0)
    (hb3 : similarity b = 0)
    (hb4 : phonetic_score q b = 0)
    (hb5 : b.search_rank = 0)
    (hb6 : 0 < contains_score q b)
    (hain : a ∈ search_posts_ranked q now posts)
    (hbin : b ∈ search_posts_ranked q now posts) :
    (search_posts_ranked q now posts).indexOf a <
      (search_posts_ranked q now posts).indexOf b := by
  have hea : exact_match q a = 3 := by
    unfold exact_match; rw [ha]; simp
  have hrA : 3 ≤ relevance q a := by
    rw [relevance, hea]; exact le_max_left _ _
  have hrB : relevance q b ≤ 3/2 := by
    rw [relevance, hb1, hb2, hb3, hb4, hb5]
    have hc := contains_score_le q b
    refine max_le (by norm_num) (max_le (by norm_num)
      (max_le hc (max_le (by norm_num) (max_le (by norm_num) (by norm_num)))))
  have hlt : relevance q b < relevance q a := by linarith
  have hs : List.Sorted (key3GeR (searchKey q now)) (search_posts_ranked q now posts) := by
    unfold search_posts_ranked
    exact List.sorted_insertionSort _ _
  set l := search_posts_ranked q now posts with hl
  have hia : l.indexOf a < l.length := List.indexOf_lt_length.mpr hain
  have hib : l.indexOf b < l.length := List.indexOf_lt_length.mpr hbin
  by_contra hcon
  push_neg at hcon
  rcases lt_or_eq_of_le hcon with hlt2 | heq
  · have hrel := hs.rel_get_of_lt (a := ⟨l.indexOf b, hib⟩) (b := ⟨l.indexOf a, hia⟩) hlt2
    rw [List.indexOf_get, List.indexOf_get] at hrel
    rcases hrel with h | ⟨h, _⟩
    · unfold searchKey at h; simp only at h; linarith
    · unfold searchKey at h; simp only at h
      rw [h.symm] at hlt
      exact absurd hlt (lt_irrefl _)
  · have hgg : l.get ⟨l.indexOf b, hib⟩ = l.get ⟨l.indexOf a, hia⟩ := by
      congr 1
      exact Fin.ext heq
    rw [List.indexOf_get, List.indexOf_get] at hgg
    rw [hgg] at hlt
    exact absurd hlt (lt_irrefl _)

/-- Witness for C9 at the concrete query and candidate pair. -/
theorem exact_title_outranks_substring_witness :
    (search_posts_ranked cexQuery 0 [cexSubstrNew, cexExactOld]).indexOf cexExactOld <
      (search_posts_ranked cexQuery 0 [cexSubstrNew, cexExactOld]).indexOf cexSubstrNew :=
  exact_title_outranks_substring cexQuery 0 [cexSubstrNew, cexExactOld]
    cexExactOld cexSubstrNew
    (by decide)
    (by
      have e1 : iexact cexSubstrNew.title cexQuery.text = false := by decide
      have e2 : iexact cexSubstrNew.description cexQuery.text = false := by decide
      simp [exact_match, e1, e2])
    (by
      have s1 : istarts cexSubstrNew.title cexQuery.text = false := by decide
      have s2 : istarts cexSubstrNew.description cexQuery.text = false := by decide
      have s3 : (cexQuery.tokens.any fun t => istarts cexSubstrNew.title t) = false := by decide
      have s4 : (cexQuery.tokens.any fun t => istarts cexSubstrNew.description t) = false := by
        decide
      simp [starts_with_score, s1, s2, s3, s4])
    (by norm_num [similarity, cexSubstrNew, max_def])
    (by
      have p1 : (cexQuery.tokens.any fun t => iends cexSubstrNew.title t) = false := by decide
      have p2 : (cexQuery.tokens.any fun t => iends cexSubstrNew.description t) = false := by
        decide
      simp [phonetic_score, p1, p2])
    rfl
    (by
      have c1 : icontains cexSubstrNew.title cexQuery.text = true := by decide
      unfold contains_score
      rw [c1]
      norm_num)
    (by rw [cex_ranked_eval]; simp)
    (by rw [cex_ranked_eval]; simp)

end Tanner
